import Mathlib

/-!
Shallow embedding of `src/extension/utilities/npm-link.ts` from the
`vscode-linkify` repository, with proofs of the specification claims about
its validation / command-selection / link-with-fallback protocol.

Modelling conventions:
* a JS `Error` is modelled by its observable `message` (`Err`);
* the external collaborators — `fs.stat`, `fs.readFile`, `JSON.parse`
  (projected to its optional `name` field, the only part this module
  reads), the package-manager detector `detect`, and `cp.exec` — are
  supplied by an `Env` value, so theorems quantify over every behavior of
  those collaborators; throwing / rejecting is `Except.error`;
* command executions are numbered in call order: the outcome of the k-th
  `cp.exec` call of one `npmLink` operation is `Env.outcomes k`, and each
  run function also returns the list of command strings it executed, in
  order, so that claims about "exactly one / two executions" are
  statements about that list;
* JS string `includes` is modelled by list-infix containment of the
  character data (`jsIncludes`); `toLowerCase` by mapping `Char.toLower`
  over the character data (`jsToLower`); `trim` by dropping whitespace
  from both ends of the character data (`jsTrim`); `path.join a b` by
  `a ++ "/" ++ b`.
-/

/-- A JS `Error` value: only its `message` is observed by this module. -/
structure Err where
  message : String
  deriving DecidableEq, Repr

/-- Result of `fs.stat`: the two predicates the module queries. -/
structure Stats where
  isDirectory : Bool
  isFile : Bool
  deriving DecidableEq, Repr

/-- What one `cp.exec` call reports to its callback: whether an execution
error occurred, plus captured stdout and stderr. -/
structure ExecOutcome where
  error : Bool
  stdout : String
  stderr : String
  deriving DecidableEq, Repr

/-- Interface for link options (`LinkOptions` in the source).
`dependencyType` is optional there, hence `Option String`. -/
structure LinkOptions where
  dependencyType : Option String
  packageName : String
  packagePath : String
  projectPath : String
  deriving DecidableEq, Repr

/-- Interface for link operation result (`LinkResult` in the source). -/
structure LinkResult where
  success : Bool
  message : String
  error : Option Err
  deriving DecidableEq, Repr

/-- Options for executing link with fallback (`LinkWithFallbackOptions`). -/
structure LinkWithFallbackOptions where
  packageManager : String
  dependencyType : String
  packagePath : String
  projectPath : String
  packageName : String
  deriving DecidableEq, Repr

/-- One behavior of all external collaborators of `npm-link.ts`:
filesystem, JSON parsing (projected to the optional `name` field),
package-manager detection (`Option String` models `result?.name` being
nullish), and the outcomes of the command executions in call order. -/
structure Env where
  stat : String → Except Err Stats
  readFile : String → Except Err String
  parseName : String → Except Err (Option String)
  detect : String → Except Err (Option String)
  outcomes : Nat → ExecOutcome

/-- JS `s.includes(sub)`: `sub` occurs contiguously inside `s`. -/
def jsIncludes (s sub : String) : Bool :=
  decide (sub.data <:+: s.data)

/-- JS `s.toLowerCase()`: lower-case every character (`String.toLower` in
Lean, restated over the character data so that it is structurally
recursive). -/
def jsToLower (s : String) : String :=
  ⟨s.data.map Char.toLower⟩

/-- JS `s.trim()`: drop whitespace from both ends (`String.trim` in Lean,
restated over the character data so that it is structurally recursive). -/
def jsTrim (s : String) : String :=
  ⟨((s.data.dropWhile Char.isWhitespace).reverse.dropWhile Char.isWhitespace).reverse⟩

/-- Node `path.join(a, b)` as used here (joining a directory and a plain
file name). -/
def pathJoin (a b : String) : String :=
  a ++ "/" ++ b

/-- `detectPackageManager` from the source: `detect({cwd})` with
`result?.name ?? 'npm'`, and any thrown error caught and replaced by
`'npm'`. -/
def detectPackageManager (env : Env) (projectPath : String) : String :=
  match env.detect projectPath with
  | .ok result => result.getD "npm"
  | .error _ => "npm"

/-- `executeCommand` from the source, applied to the callback data of one
`cp.exec` call: on an execution error it rejects with
`Command execution failed: <stdout>\n<stderr>`, otherwise it resolves
with the trimmed stdout. -/
def executeCommand (outcome : ExecOutcome) : Except Err String :=
  if outcome.error then
    .error ⟨"Command execution failed: " ++ outcome.stdout ++ "\n" ++ outcome.stderr⟩
  else
    .ok (jsTrim outcome.stdout)

/-- `normalizeDependencyType` from the source; `none` models an absent
argument, which JS defaults to `'prod'`. -/
def normalizeDependencyType (dependencyType : Option String) : String :=
  let lowerType := jsToLower (dependencyType.getD "prod")
  if lowerType = "optionaldependencies" ∨ lowerType = "optional" then "optional"
  else if lowerType = "peerdependencies" ∨ lowerType = "peer" then "peer"
  else if lowerType = "devdependencies" ∨ lowerType = "dev" then "dev"
  else "prod"

/-- The `packageManagerCommands` lookup object from the source, as a
function of the manager key and the (already normalized) dependency-type
key. The source object has exactly the keys npm, pnpm, bun, yarn and the
four dependency-type keys per manager; lookups only happen at those keys
(`getAddCommand` falls back to npm first), so the final `else` arms here
are the yarn row and, per manager, the prod entry. -/
def packageManagerCommands (manager normalizedType packagePath : String) : String :=
  if manager = "npm" then
    if normalizedType = "optional" then "npm install --save-optional " ++ packagePath
    else if normalizedType = "peer" then "npm install --save-peer " ++ packagePath
    else if normalizedType = "dev" then "npm install --save-dev " ++ packagePath
    else "npm install --save " ++ packagePath
  else if manager = "pnpm" then
    if normalizedType = "optional" then "pnpm add --save-optional " ++ packagePath
    else if normalizedType = "peer" then "pnpm add --save-peer " ++ packagePath
    else if normalizedType = "dev" then "pnpm add --save-dev " ++ packagePath
    else "pnpm add --save " ++ packagePath
  else if manager = "bun" then
    if normalizedType = "peer" then "bun install --peer " ++ packagePath
    else if normalizedType = "dev" then "bun install --dev " ++ packagePath
    else "bun install " ++ packagePath
  else
    if normalizedType = "optional" then "yarn add --optional " ++ packagePath
    else if normalizedType = "peer" then "yarn add --peer " ++ packagePath
    else if normalizedType = "dev" then "yarn add --dev " ++ packagePath
    else "yarn add " ++ packagePath

/-- The keys of the `packageManagerCommands` object. -/
def knownManagers : List String :=
  ["npm", "pnpm", "bun", "yarn"]

/-- `getAddCommand` from the source under the simplifying assumption that
the manager string is not an `Object.prototype` member name: normalize
the dependency type, fall back to the npm row when the manager is not a
key of `packageManagerCommands`, then look up the command. The source's
guard is the JS `in` operator, which also answers true for properties
inherited from `Object.prototype`; that error path is collapsed here and
modelled exactly in `getAddCommandJs` below. -/
def getAddCommand (packageManager packagePath dependencyType : String) : String :=
  let normalizedType := normalizeDependencyType (some dependencyType)
  let manager := if packageManager ∈ knownManagers then packageManager else "npm"
  packageManagerCommands manager normalizedType packagePath

/-- The own property names of `Object.prototype` in the JS runtime. A
plain object literal such as `packageManagerCommands` inherits these, so
the `in` operator answers true for them even though they are not keys of
the literal. -/
def objectPrototypeKeys : List String :=
  ["constructor", "hasOwnProperty", "isPrototypeOf", "propertyIsEnumerable",
   "toLocaleString", "toString", "valueOf",
   "__defineGetter__", "__defineSetter__", "__lookupGetter__", "__lookupSetter__",
   "__proto__"]

/-- The JS test `manager in packageManagerCommands`: true for the four own
keys and for every property inherited from `Object.prototype`. -/
def jsInPackageManagerCommands (manager : String) : Bool :=
  decide (manager ∈ knownManagers) || decide (manager ∈ objectPrototypeKeys)

/-- `getAddCommand` from the source with the exact semantics of the JS
`in` guard. A manager string naming an `Object.prototype` member passes
the guard without being remapped to npm, so the subsequent
`packageManagerCommands[manager][normalizedType](packagePath)` lookup
reaches the inherited value, indexes it at a dependency-type key it does
not have, and calls `undefined` — a thrown `TypeError`, modelled as
`Except.error`. Every other manager string is remapped to npm when
unknown and the lookup returns the table row. -/
def getAddCommandJs (packageManager packagePath dependencyType : String) :
    Except Err String :=
  let normalizedType := normalizeDependencyType (some dependencyType)
  let manager := if jsInPackageManagerCommands packageManager then packageManager else "npm"
  if manager ∈ knownManagers then
    .ok (packageManagerCommands manager normalizedType packagePath)
  else
    .error ⟨"packageManagerCommands[manager][normalizedType] is not a function"⟩

/-- `isWorkspaceError` from the source. -/
def isWorkspaceError (error : Err) : Bool :=
  let errorMessage := jsToLower error.message
  jsIncludes errorMessage "workspace" ||
    jsIncludes errorMessage "err_pnpm_workspace_pkg_not_found"

/-- Specification-side restatement of the workspace-error predicate: the
lowercased error text contains the substring "workspace". Used to compare
the source predicate against this single check. -/
def isWorkspaceErrorSpec (error : Err) : Bool :=
  jsIncludes (jsToLower error.message) "workspace"

/-- JS falsiness of `packageJson.name` (`!packageJson.name`): the field is
absent or the empty string. -/
def jsFalsyName (name : Option String) : Bool :=
  match name with
  | none => true
  | some v => v == ""

/-- The body of `validatePackage`'s `try` block: each `await` that can
reject propagates as `Except.error`. Returns `some result` for a failed
check and `none` when validation passes. -/
def validateBody (env : Env) (packagePath packageName : String) :
    Except Err (Option LinkResult) := do
  let packagePathStats ← env.stat packagePath
  let isPackagePathDirectory := packagePathStats.isDirectory
  if !isPackagePathDirectory then
    return some { success := false
                  message := "Package directory does not exist: " ++ packagePath
                  error := none }
  let packageJsonPath := pathJoin packagePath "package.json"
  let packageJsonStats ← env.stat packageJsonPath
  let isPackageJsonFile := packageJsonStats.isFile
  if !isPackageJsonFile then
    return some { success := false
                  message := "No package.json found in: " ++ packagePath
                  error := none }
  let packageJsonContent ← env.readFile packageJsonPath
  let packageJsonName ← env.parseName packageJsonContent
  if jsFalsyName packageJsonName then
    return some { success := false
                  message := "No package name found in package.json: " ++ packageJsonPath
                  error := none }
  if packageJsonName.getD "" ≠ packageName then
    return some { success := false
                  message := "Package name in package.json (" ++ packageJsonName.getD "" ++
                    ") does not match provided package name (" ++ packageName ++ ")"
                  error := none }
  return none

/-- `validatePackage` from the source: the `try` body with its `catch`
clause, which converts any thrown error into a failing result with
message `Failed to create link: <error message>`. -/
def validatePackage (env : Env) (packagePath packageName : String) :
    Option LinkResult :=
  match validateBody env packagePath packageName with
  | .ok result => result
  | .error error =>
      some { success := false
             message := "Failed to create link: " ++ error.message
             error := some error }

/-- `createLinkCommand` from the source: a switch on the manager string
whose default case is the npm row. -/
def createLinkCommand (packageManager packagePath : String) : String :=
  if packageManager = "yarn" then "yarn link " ++ packagePath
  else if packageManager = "pnpm" then "pnpm link " ++ packagePath
  else if packageManager = "bun" then "bun link " ++ packagePath
  else "npm link " ++ packagePath

/-- `executeLinkWithFallback` from the source. The link command is the
operation's first execution (`env.outcomes 0`); the fallback add command,
when attempted, is the second (`env.outcomes 1`). In the source the
fallback is guarded by `linkError instanceof Error && isWorkspaceError`,
and every rejection value produced by `executeCommand` is an `Error`, so
the `instanceof` test is always true here. Returns the outcome of the
`try` body (a thrown error propagates to the caller as `Except.error`)
paired with the list of executed command strings. -/
def executeLinkWithFallback (env : Env) (options : LinkWithFallbackOptions) :
    Except Err LinkResult × List String :=
  let linkCommand := createLinkCommand options.packageManager options.packagePath
  match executeCommand (env.outcomes 0) with
  | .ok output =>
      (.ok { success := true
             message := "Successfully linked " ++ options.packageName ++ " from " ++
               options.packagePath ++ " to project at " ++ options.projectPath ++
               "\n" ++ output
             error := none },
       [linkCommand])
  | .error linkError =>
      if isWorkspaceError linkError then
        let addCommand :=
          getAddCommand options.packageManager options.packagePath options.dependencyType
        match executeCommand (env.outcomes 1) with
        | .ok output =>
            (.ok { success := true
                   message := "Successfully added " ++ options.packageName ++ " from " ++
                     options.packagePath ++ " to project at " ++ options.projectPath ++
                     " (fallback from link)\n" ++ output
                   error := none },
             [linkCommand, addCommand])
        | .error addError => (.error addError, [linkCommand, addCommand])
      else
        (.error linkError, [linkCommand])

/-- The body of `npmLink`'s `try` block: validate, detect the manager,
then run the link with fallback. Paired with the executed-command list
(empty when validation fails, since validation runs no command). -/
def npmLinkTry (env : Env) (options : LinkOptions) :
    Except Err LinkResult × List String :=
  let dependencyType := options.dependencyType.getD "prod"
  match validatePackage env options.packagePath options.packageName with
  | some validationResult => (.ok validationResult, [])
  | none =>
      let packageManager := detectPackageManager env options.projectPath
      executeLinkWithFallback env
        { packageManager := packageManager
          dependencyType := dependencyType
          packagePath := options.packagePath
          projectPath := options.projectPath
          packageName := options.packageName }

/-- The public entry point `npmLink`: the `try` body with the top-level
`catch`, which converts any error reaching it into
`{success: false, message: "Failed to create link: <msg>", error}`. -/
def npmLink (env : Env) (options : LinkOptions) : LinkResult × List String :=
  match npmLinkTry env options with
  | (.ok result, trace) => (result, trace)
  | (.error errorValue, trace) =>
      ({ success := false
         message := "Failed to create link: " ++ errorValue.message
         error := some errorValue },
       trace)

/-! ### Concrete collaborator behaviors used to instantiate the theorems -/

/-- A behavior where `/pkg` is a directory whose `package.json` is a file
with manifest `\x7b"name":"foo"\x7d`, the detector reports pnpm, and every
command execution succeeds with stdout "ok". -/
def envOkPnpm : Env where
  stat := fun p =>
    if p = "/pkg" then .ok ⟨true, false⟩
    else if p = "/pkg/package.json" then .ok ⟨false, true⟩
    else .error ⟨"ENOENT: no such file or directory, stat " ++ p⟩
  readFile := fun _ => .ok "\x7b\"name\":\"foo\"\x7d"
  parseName := fun _ => .ok (some "foo")
  detect := fun _ => .ok (some "pnpm")
  outcomes := fun _ => ⟨false, "ok", ""⟩

/-- The options of the end-to-end example: link package `foo` at `/pkg`
into the project at `/proj`, dependency type omitted. -/
def optsFoo : LinkOptions where
  dependencyType := none
  packageName := "foo"
  packagePath := "/pkg"
  projectPath := "/proj"

/-- Like `envOkPnpm`, but the first execution fails with the pnpm
workspace token on stderr and the second execution succeeds. -/
def envWsFallback : Env :=
  { envOkPnpm with
    outcomes := fun k =>
      if k = 0 then ⟨true, "", "ERR_PNPM_WORKSPACE_PKG_NOT_FOUND"⟩
      else ⟨false, "added", ""⟩ }

/-- Like `envOkPnpm`, but the first execution fails with an unrelated
message on stderr. -/
def envOtherFail : Env :=
  { envOkPnpm with outcomes := fun _ => ⟨true, "", "Some other error"⟩ }

/-- Like `envOkPnpm`, but package-manager detection throws. -/
def envDetectThrows : Env :=
  { envOkPnpm with detect := fun _ => .error ⟨"detector exploded"⟩ }

/-- A behavior where no path exists: every `fs.stat` call rejects. -/
def envNoPkg : Env :=
  { envOkPnpm with
    stat := fun p => .error ⟨"ENOENT: no such file or directory, stat " ++ p⟩ }

/-- A behavior where `/pkg` exists but is a regular file, not a
directory. -/
def envNotDir : Env :=
  { envOkPnpm with
    stat := fun p =>
      if p = "/pkg" then .ok ⟨false, true⟩
      else .error ⟨"ENOENT: no such file or directory, stat " ++ p⟩ }

/-! ### Helper lemmas -/

theorem char_toNat_ofNat_valid (n : Nat) (h : n.isValidChar) :
    (Char.ofNat n).toNat = n := by
  rw [Char.ofNat, dif_pos h]
  rfl

theorem char_toLower_toLower (c : Char) : c.toLower.toLower = c.toLower := by
  by_cases h : c.toNat ≥ 65 ∧ c.toNat ≤ 90
  · have h1 : c.toLower = Char.ofNat (c.toNat + 32) := by
      simp only [Char.toLower]
      rw [if_pos h]
    have hv : (c.toNat + 32).isValidChar := Or.inl (by omega)
    have ht : (Char.ofNat (c.toNat + 32)).toNat = c.toNat + 32 :=
      char_toNat_ofNat_valid _ hv
    have h2 : (Char.ofNat (c.toNat + 32)).toLower = Char.ofNat (c.toNat + 32) := by
      simp only [Char.toLower]
      rw [if_neg]
      rw [ht]
      omega
    rw [h1, h2]
  · have h1 : c.toLower = c := by
      simp only [Char.toLower]
      rw [if_neg h]
    rw [h1]
    exact h1

theorem jsToLower_idem (s : String) : jsToLower (jsToLower s) = jsToLower s := by
  show (⟨(s.data.map Char.toLower).map Char.toLower⟩ : String) = ⟨s.data.map Char.toLower⟩
  rw [List.map_map]
  congr 1
  exact List.map_congr_left fun c _ => char_toLower_toLower c

theorem normalizeDT_mem_canonical (d : Option String) :
    normalizeDependencyType d ∈ (["prod", "dev", "peer", "optional"] : List String) := by
  simp only [normalizeDependencyType]
  split
  · decide
  · split
    · decide
    · split
      · decide
      · decide

theorem normalizeDT_idem (d : Option String) :
    normalizeDependencyType (some (normalizeDependencyType d)) = normalizeDependencyType d := by
  have h := normalizeDT_mem_canonical d
  simp only [List.mem_cons, List.not_mem_nil, or_false] at h
  rcases h with h | h | h | h <;> rw [h] <;> decide

theorem jsIncludes_append_right (s t sub : String) (h : jsIncludes s sub = true) :
    jsIncludes (s ++ t) sub = true := by
  have h1 : sub.data <:+: s.data := of_decide_eq_true h
  have h2 : s.data <:+: s.data ++ t.data := (List.prefix_append s.data t.data).isInfix
  have h3 : sub.data <:+: (s ++ t).data := by
    rw [String.data_append]
    exact h1.trans h2
  exact decide_eq_true h3

theorem jsIncludes_append_left (s t sub : String) (h : jsIncludes t sub = true) :
    jsIncludes (s ++ t) sub = true := by
  have h1 : sub.data <:+: t.data := of_decide_eq_true h
  have h2 : t.data <:+: s.data ++ t.data := (List.suffix_append s.data t.data).isInfix
  have h3 : sub.data <:+: (s ++ t).data := by
    rw [String.data_append]
    exact h1.trans h2
  exact decide_eq_true h3

theorem workspace_infix_token :
    ("workspace".data <:+: "err_pnpm_workspace_pkg_not_found".data) := by decide

/-! ### Claim theorems -/

/-- C7: `normalizeDependencyType` maps "optional"/"optionaldependencies" to
optional, "peer"/"peerdependencies" to peer, "dev"/"devdependencies" to
dev, every other input (absent input included) to prod; it is idempotent,
canonical values are fixed points, and its range is exactly the four
canonical variants. -/
theorem C7_normalize_total_idempotent :
    (normalizeDependencyType (some "optional") = "optional" ∧
      normalizeDependencyType (some "optionaldependencies") = "optional" ∧
      normalizeDependencyType (some "peer") = "peer" ∧
      normalizeDependencyType (some "peerdependencies") = "peer" ∧
      normalizeDependencyType (some "dev") = "dev" ∧
      normalizeDependencyType (some "devdependencies") = "dev" ∧
      normalizeDependencyType (some "prod") = "prod") ∧
    normalizeDependencyType none = "prod" ∧
    (∀ s : String,
      jsToLower s ∉ (["optional", "optionaldependencies", "peer", "peerdependencies",
        "dev", "devdependencies"] : List String) →
      normalizeDependencyType (some s) = "prod") ∧
    (∀ d : Option String,
      normalizeDependencyType d ∈ (["prod", "dev", "peer", "optional"] : List String)) ∧
    (∀ d : Option String,
      normalizeDependencyType (some (normalizeDependencyType d)) = normalizeDependencyType d) := by
  refine ⟨by decide, by decide, ?_, normalizeDT_mem_canonical, normalizeDT_idem⟩
  intro s hs
  simp only [List.mem_cons, List.not_mem_nil, or_false, not_or] at hs
  obtain ⟨h1, h2, h3, h4, h5, h6⟩ := hs
  simp only [normalizeDependencyType, Option.getD_some]
  simp [h1, h2, h3, h4, h5, h6]

/-- C7 witness: a concrete unrecognized spelling normalizes to prod, and a
concrete canonical value is a fixed point. -/
theorem C7_witness :
    normalizeDependencyType (some "banana") = "prod" ∧
    normalizeDependencyType (some (normalizeDependencyType (some "DevDependencies"))) =
      normalizeDependencyType (some "DevDependencies") := by
  constructor
  · exact C7_normalize_total_idempotent.2.2.1 "banana" (by decide)
  · exact C7_normalize_total_idempotent.2.2.2.2 (some "DevDependencies")

/-- C9: dependency-type normalization is case-insensitive — normalizing a
string and normalizing its lowercased form agree. -/
theorem C9_normalize_case_insensitive (s : String) :
    normalizeDependencyType (some s) = normalizeDependencyType (some (jsToLower s)) := by
  have h : jsToLower (jsToLower s) = jsToLower s := jsToLower_idem s
  simp only [normalizeDependencyType, Option.getD_some, h]

/-- C10: the workspace-error predicate of the source is equivalent to the
single case-insensitive check for the substring "workspace", because the
pnpm token itself contains "workspace". -/
theorem C10_isWorkspaceError_refines_spec (e : Err) :
    isWorkspaceError e = isWorkspaceErrorSpec e := by
  simp only [isWorkspaceError, isWorkspaceErrorSpec]
  cases hw : jsIncludes (jsToLower e.message) "workspace"
  · cases hp : jsIncludes (jsToLower e.message) "err_pnpm_workspace_pkg_not_found"
    · simp [hw, hp]
    · exfalso
      have h1 : "err_pnpm_workspace_pkg_not_found".data <:+: (jsToLower e.message).data :=
        of_decide_eq_true hp
      have h2 : "workspace".data <:+: (jsToLower e.message).data :=
        workspace_infix_token.trans h1
      exact absurd h2 (of_decide_eq_false hw)
  · simp [hw]

theorem elwf_link_ok (env : Env) (o : LinkWithFallbackOptions) (out : String)
    (h0 : executeCommand (env.outcomes 0) = .ok out) :
    executeLinkWithFallback env o =
      (.ok { success := true
             message := "Successfully linked " ++ o.packageName ++ " from " ++ o.packagePath ++
               " to project at " ++ o.projectPath ++ "\n" ++ out
             error := none },
       [createLinkCommand o.packageManager o.packagePath]) := by
  simp only [executeLinkWithFallback, h0]

theorem elwf_link_ws_add_ok (env : Env) (o : LinkWithFallbackOptions) (err : Err) (out : String)
    (h0 : executeCommand (env.outcomes 0) = .error err)
    (hws : isWorkspaceError err = true)
    (h1 : executeCommand (env.outcomes 1) = .ok out) :
    executeLinkWithFallback env o =
      (.ok { success := true
             message := "Successfully added " ++ o.packageName ++ " from " ++ o.packagePath ++
               " to project at " ++ o.projectPath ++ " (fallback from link)\n" ++ out
             error := none },
       [createLinkCommand o.packageManager o.packagePath,
        getAddCommand o.packageManager o.packagePath o.dependencyType]) := by
  simp only [executeLinkWithFallback, h0, hws, if_true, h1]

theorem elwf_link_ws_add_err (env : Env) (o : LinkWithFallbackOptions) (err err2 : Err)
    (h0 : executeCommand (env.outcomes 0) = .error err)
    (hws : isWorkspaceError err = true)
    (h1 : executeCommand (env.outcomes 1) = .error err2) :
    executeLinkWithFallback env o =
      (.error err2,
       [createLinkCommand o.packageManager o.packagePath,
        getAddCommand o.packageManager o.packagePath o.dependencyType]) := by
  simp only [executeLinkWithFallback, h0, hws, if_true, h1]

theorem elwf_link_nonws (env : Env) (o : LinkWithFallbackOptions) (err : Err)
    (h0 : executeCommand (env.outcomes 0) = .error err)
    (hws : isWorkspaceError err = false) :
    executeLinkWithFallback env o =
      (.error err, [createLinkCommand o.packageManager o.packagePath]) := by
  simp only [executeLinkWithFallback, h0, hws, Bool.false_eq_true, if_false]

theorem npmLink_invalid (env : Env) (options : LinkOptions) (r : LinkResult)
    (hvalid : validatePackage env options.packagePath options.packageName = some r) :
    npmLink env options = (r, []) := by
  simp only [npmLink, npmLinkTry, hvalid]

theorem npmLink_valid_ok (env : Env) (options : LinkOptions) (out : String)
    (hvalid : validatePackage env options.packagePath options.packageName = none)
    (h0 : executeCommand (env.outcomes 0) = .ok out) :
    npmLink env options =
      ({ success := true
         message := "Successfully linked " ++ options.packageName ++ " from " ++
           options.packagePath ++ " to project at " ++ options.projectPath ++ "\n" ++ out
         error := none },
       [createLinkCommand (detectPackageManager env options.projectPath) options.packagePath]) := by
  simp only [npmLink, npmLinkTry, hvalid, elwf_link_ok env _ out h0]

theorem npmLink_valid_ws_ok (env : Env) (options : LinkOptions) (err : Err) (out : String)
    (hvalid : validatePackage env options.packagePath options.packageName = none)
    (h0 : executeCommand (env.outcomes 0) = .error err)
    (hws : isWorkspaceError err = true)
    (h1 : executeCommand (env.outcomes 1) = .ok out) :
    npmLink env options =
      ({ success := true
         message := "Successfully added " ++ options.packageName ++ " from " ++
           options.packagePath ++ " to project at " ++ options.projectPath ++
           " (fallback from link)\n" ++ out
         error := none },
       [createLinkCommand (detectPackageManager env options.projectPath) options.packagePath,
        getAddCommand (detectPackageManager env options.projectPath) options.packagePath
          (options.dependencyType.getD "prod")]) := by
  simp only [npmLink, npmLinkTry, hvalid, elwf_link_ws_add_ok env _ err out h0 hws h1]

theorem npmLink_valid_ws_err (env : Env) (options : LinkOptions) (err err2 : Err)
    (hvalid : validatePackage env options.packagePath options.packageName = none)
    (h0 : executeCommand (env.outcomes 0) = .error err)
    (hws : isWorkspaceError err = true)
    (h1 : executeCommand (env.outcomes 1) = .error err2) :
    npmLink env options =
      ({ success := false
         message := "Failed to create link: " ++ err2.message
         error := some err2 },
       [createLinkCommand (detectPackageManager env options.projectPath) options.packagePath,
        getAddCommand (detectPackageManager env options.projectPath) options.packagePath
          (options.dependencyType.getD "prod")]) := by
  simp only [npmLink, npmLinkTry, hvalid, elwf_link_ws_add_err env _ err err2 h0 hws h1]

theorem npmLink_valid_nonws (env : Env) (options : LinkOptions) (err : Err)
    (hvalid : validatePackage env options.packagePath options.packageName = none)
    (h0 : executeCommand (env.outcomes 0) = .error err)
    (hws : isWorkspaceError err = false) :
    npmLink env options =
      ({ success := false
         message := "Failed to create link: " ++ err.message
         error := some err },
       [createLinkCommand (detectPackageManager env options.projectPath) options.packagePath]) := by
  simp only [npmLink, npmLinkTry, hvalid, elwf_link_nonws env _ err h0 hws]

/-- C1: for every collaborator behavior and every options value, `npmLink`
yields a `LinkResult` value: when the try body succeeds its result is
returned unchanged, and when any error reaches the top boundary the
result is success=false with message `Failed to create link: <error
message>` and the underlying error attached. -/
theorem C1_npmLink_never_throws (env : Env) (options : LinkOptions) :
    ((npmLinkTry env options).1 = .ok (npmLink env options).1 ∧
      (npmLink env options).2 = (npmLinkTry env options).2) ∨
    (∃ e : Err, (npmLinkTry env options).1 = .error e ∧
      npmLink env options =
        ({ success := false
           message := "Failed to create link: " ++ e.message
           error := some e },
         (npmLinkTry env options).2)) := by
  rcases h : npmLinkTry env options with ⟨exc, trace⟩
  cases exc with
  | ok r => left; simp [npmLink, h]
  | error e => right; exact ⟨e, by simp [h], by simp [npmLink, h]⟩

/-- C3: a link-command failure is classified as workspace-related exactly
when the lowercased error text contains "workspace" or the pnpm token;
only then is the add fallback attempted (a second command execution), and
every other failure propagates immediately with no second command. -/
theorem C3_workspace_classification (env : Env) (o : LinkWithFallbackOptions) (err : Err)
    (hfail : executeCommand (env.outcomes 0) = .error err) :
    (isWorkspaceError err =
      (jsIncludes (jsToLower err.message) "workspace" ||
        jsIncludes (jsToLower err.message) "err_pnpm_workspace_pkg_not_found")) ∧
    (isWorkspaceError err = true →
      (executeLinkWithFallback env o).2 =
        [createLinkCommand o.packageManager o.packagePath,
         getAddCommand o.packageManager o.packagePath o.dependencyType]) ∧
    (isWorkspaceError err = false →
      executeLinkWithFallback env o =
        (.error err, [createLinkCommand o.packageManager o.packagePath])) := by
  refine ⟨rfl, ?_, ?_⟩
  · intro hws
    cases h1 : executeCommand (env.outcomes 1) with
    | ok out => rw [elwf_link_ws_add_ok env o err out hfail hws h1]
    | error e2 => rw [elwf_link_ws_add_err env o err e2 hfail hws h1]
  · intro hws
    exact elwf_link_nonws env o err hfail hws

/-- C3 witness: a failure whose stderr carries the pnpm workspace token
leads to exactly the link command followed by the add command. -/
theorem C3_witness :
    (executeLinkWithFallback envWsFallback
        { packageManager := "pnpm", dependencyType := "prod", packagePath := "/pkg",
          projectPath := "/proj", packageName := "foo" }).2 =
      ["pnpm link /pkg", "pnpm add --save /pkg"] := by
  have h := C3_workspace_classification envWsFallback
      { packageManager := "pnpm", dependencyType := "prod", packagePath := "/pkg",
        projectPath := "/proj", packageName := "foo" }
      ⟨"Command execution failed: \nERR_PNPM_WORKSPACE_PKG_NOT_FOUND"⟩ rfl
  exact (h.2.1 (by decide)).trans (by decide)

/-- C4: for every package that passes validation, the link command is
executed exactly once; a workspace-classified failure leads to exactly
one further add execution (two in total, terminal either way), and a
non-workspace failure leads to exactly one execution in total with a
success=false result. -/
theorem C4_execution_counts (env : Env) (options : LinkOptions)
    (hvalid : validatePackage env options.packagePath options.packageName = none) :
    (∀ out, executeCommand (env.outcomes 0) = .ok out →
      (npmLink env options).2 =
        [createLinkCommand (detectPackageManager env options.projectPath) options.packagePath]) ∧
    (∀ err, executeCommand (env.outcomes 0) = .error err → isWorkspaceError err = true →
      (npmLink env options).2 =
        [createLinkCommand (detectPackageManager env options.projectPath) options.packagePath,
         getAddCommand (detectPackageManager env options.projectPath) options.packagePath
           (options.dependencyType.getD "prod")]) ∧
    (∀ err, executeCommand (env.outcomes 0) = .error err → isWorkspaceError err = false →
      (npmLink env options).2 =
        [createLinkCommand (detectPackageManager env options.projectPath) options.packagePath] ∧
      (npmLink env options).1.success = false) := by
  refine ⟨?_, ?_, ?_⟩
  · intro out h0
    rw [npmLink_valid_ok env options out hvalid h0]
  · intro err h0 hws
    cases h1 : executeCommand (env.outcomes 1) with
    | ok out => rw [npmLink_valid_ws_ok env options err out hvalid h0 hws h1]
    | error e2 => rw [npmLink_valid_ws_err env options err e2 hvalid h0 hws h1]
  · intro err h0 hws
    rw [npmLink_valid_nonws env options err hvalid h0 hws]
    exact ⟨rfl, rfl⟩

/-- C4 witness: with a valid package and a workspace-classified link
failure, the operation executes exactly the link command then the add
command; with an unrelated failure, exactly the link command, with a
failed result. -/
theorem C4_witness :
    ((npmLink envWsFallback optsFoo).2 = ["pnpm link /pkg", "pnpm add --save /pkg"]) ∧
    ((npmLink envOtherFail optsFoo).2 = ["pnpm link /pkg"] ∧
      (npmLink envOtherFail optsFoo).1.success = false) := by
  constructor
  · have h := (C4_execution_counts envWsFallback optsFoo (by decide)).2.1
        ⟨"Command execution failed: \nERR_PNPM_WORKSPACE_PKG_NOT_FOUND"⟩ rfl (by decide)
    exact h.trans (by decide)
  · have h := (C4_execution_counts envOtherFail optsFoo (by decide)).2.2
        ⟨"Command execution failed: \nSome other error"⟩ rfl (by decide)
    exact ⟨h.1.trans (by decide), h.2⟩

/-- C6: when validation passes and the link command succeeds with output
`out`, the result is success=true with the "Successfully linked" message;
when a workspace fallback add succeeds with output `out`, the message is
the "Successfully added ... (fallback from link)" one. -/
theorem C6_success_message (env : Env) (options : LinkOptions)
    (hvalid : validatePackage env options.packagePath options.packageName = none) :
    (∀ out, executeCommand (env.outcomes 0) = .ok out →
      (npmLink env options).1 =
        { success := true
          message := "Successfully linked " ++ options.packageName ++ " from " ++
            options.packagePath ++ " to project at " ++ options.projectPath ++ "\n" ++ out
          error := none }) ∧
    (∀ err out, executeCommand (env.outcomes 0) = .error err → isWorkspaceError err = true →
      executeCommand (env.outcomes 1) = .ok out →
      (npmLink env options).1 =
        { success := true
          message := "Successfully added " ++ options.packageName ++ " from " ++
            options.packagePath ++ " to project at " ++ options.projectPath ++
            " (fallback from link)\n" ++ out
          error := none }) := by
  constructor
  · intro out h0
    rw [npmLink_valid_ok env options out hvalid h0]
  · intro err out h0 hws h1
    rw [npmLink_valid_ws_ok env options err out hvalid h0 hws h1]

/-- C6 witness: the end-to-end example — packagePath "/pkg" with manifest
name "foo", projectPath "/proj", detector pnpm, execution succeeding
with stdout "ok" — yields exactly the expected successful result. -/
theorem C6_witness :
    validatePackage envOkPnpm "/pkg" "foo" = none ∧
    npmLink envOkPnpm optsFoo =
      ({ success := true
         message := "Successfully linked foo from /pkg to project at /proj\nok"
         error := none },
       ["pnpm link /pkg"]) := by
  refine ⟨by decide, ?_⟩
  have h := (C6_success_message envOkPnpm optsFoo (by decide)).1 (jsTrim "ok") rfl
  have h2 : (npmLink envOkPnpm optsFoo).1 =
      { success := true
        message := "Successfully linked foo from /pkg to project at /proj\nok"
        error := none } := h.trans (by decide)
  have h3 : (npmLink envOkPnpm optsFoo).2 = ["pnpm link /pkg"] := by decide
  calc npmLink envOkPnpm optsFoo
      = ((npmLink envOkPnpm optsFoo).1, (npmLink envOkPnpm optsFoo).2) := rfl
    _ = ({ success := true
           message := "Successfully linked foo from /pkg to project at /proj\nok"
           error := none },
         ["pnpm link /pkg"]) := by rw [h2, h3]

theorem validatePackage_detect_irrel (env : Env)
    (d : String → Except Err (Option String)) (pp pn : String) :
    validatePackage { env with detect := d } pp pn = validatePackage env pp pn := rfl

theorem elwf_detect_irrel (env : Env) (d : String → Except Err (Option String))
    (o : LinkWithFallbackOptions) :
    executeLinkWithFallback { env with detect := d } o = executeLinkWithFallback env o := rfl

theorem elwf_empty_manager (env : Env) (dt pp prj pn : String) :
    executeLinkWithFallback env
      { packageManager := "", dependencyType := dt, packagePath := pp,
        projectPath := prj, packageName := pn } =
    executeLinkWithFallback env
      { packageManager := "npm", dependencyType := dt, packagePath := pp,
        projectPath := prj, packageName := pn } := by
  simp [executeLinkWithFallback, createLinkCommand, getAddCommand, knownManagers]

theorem getAddCommandJs_cases (m p t : String) :
    getAddCommandJs m p t =
      if m ∈ knownManagers then
        .ok (packageManagerCommands m (normalizeDependencyType (some t)) p)
      else if m ∈ objectPrototypeKeys then
        .error ⟨"packageManagerCommands[manager][normalizedType] is not a function"⟩
      else
        .ok (packageManagerCommands "npm" (normalizeDependencyType (some t)) p) := by
  by_cases hk : m ∈ knownManagers
  · simp [getAddCommandJs, jsInPackageManagerCommands, hk]
  · by_cases hp : m ∈ objectPrototypeKeys
    · simp [getAddCommandJs, jsInPackageManagerCommands, hk, hp]
    · simp only [knownManagers, List.mem_cons, List.not_mem_nil, or_false, not_or] at hk
      obtain ⟨h1, h2, h3, h4⟩ := hk
      simp [getAddCommandJs, jsInPackageManagerCommands, knownManagers, hp, h1, h2, h3, h4]

/-- C2 counterexample: "toString" lies outside the four manager keys but
is an `Object.prototype` member, so the JS `in` guard skips the npm
remap and the add lookup throws a `TypeError` instead of falling back to
the npm row — refuting the claim that every manager string outside
{npm, yarn, pnpm, bun} falls back rather than failing. -/
theorem C2_counterexample :
    ("toString" ∈ knownManagers → False) ∧
    ("toString" ∈ objectPrototypeKeys) ∧
    getAddCommandJs "toString" "/pkg" "dev" =
      .error ⟨"packageManagerCommands[manager][normalizedType] is not a function"⟩ ∧
    (getAddCommandJs "toString" "/pkg" "dev" =
      .ok (getAddCommand "npm" "/pkg" "dev") → False) := by
  refine ⟨by decide, by decide, rfl, ?_⟩
  intro h
  exact Except.noConfusion h

/-- C2 (amended): the add-command selector realizes exactly the spec
table for all four managers and all normalized dependency types (bun's
prod and optional rows coinciding); the link-command selector returns
`<manager> link <path>` with the manager's invocation name as first
token for the four known managers and falls back to the npm row for
every other string; a manager string outside the four falls back to the
npm row in the add mapping as well provided it is not an
`Object.prototype` member name, while `Object.prototype` member names
pass the `in` guard unremapped and the add lookup throws a `TypeError`;
add-command lookup factors through dependency-type normalization. -/
theorem C2_command_tables_amended (path : String) :
    (getAddCommandJs "npm" path "prod" = .ok ("npm install --save " ++ path) ∧
      getAddCommandJs "npm" path "dev" = .ok ("npm install --save-dev " ++ path) ∧
      getAddCommandJs "npm" path "peer" = .ok ("npm install --save-peer " ++ path) ∧
      getAddCommandJs "npm" path "optional" = .ok ("npm install --save-optional " ++ path)) ∧
    (getAddCommandJs "pnpm" path "prod" = .ok ("pnpm add --save " ++ path) ∧
      getAddCommandJs "pnpm" path "dev" = .ok ("pnpm add --save-dev " ++ path) ∧
      getAddCommandJs "pnpm" path "peer" = .ok ("pnpm add --save-peer " ++ path) ∧
      getAddCommandJs "pnpm" path "optional" = .ok ("pnpm add --save-optional " ++ path)) ∧
    (getAddCommandJs "yarn" path "prod" = .ok ("yarn add " ++ path) ∧
      getAddCommandJs "yarn" path "dev" = .ok ("yarn add --dev " ++ path) ∧
      getAddCommandJs "yarn" path "peer" = .ok ("yarn add --peer " ++ path) ∧
      getAddCommandJs "yarn" path "optional" = .ok ("yarn add --optional " ++ path)) ∧
    (getAddCommandJs "bun" path "prod" = .ok ("bun install " ++ path) ∧
      getAddCommandJs "bun" path "dev" = .ok ("bun install --dev " ++ path) ∧
      getAddCommandJs "bun" path "peer" = .ok ("bun install --peer " ++ path) ∧
      getAddCommandJs "bun" path "optional" = getAddCommandJs "bun" path "prod") ∧
    (createLinkCommand "npm" path = "npm" ++ " link " ++ path ∧
      createLinkCommand "yarn" path = "yarn" ++ " link " ++ path ∧
      createLinkCommand "pnpm" path = "pnpm" ++ " link " ++ path ∧
      createLinkCommand "bun" path = "bun" ++ " link " ++ path) ∧
    (∀ manager, manager ∉ knownManagers → manager ∉ objectPrototypeKeys →
      (∀ dependencyType, getAddCommandJs manager path dependencyType =
        getAddCommandJs "npm" path dependencyType) ∧
      createLinkCommand manager path = createLinkCommand "npm" path) ∧
    (∀ manager, manager ∈ objectPrototypeKeys →
      (∀ dependencyType, getAddCommandJs manager path dependencyType =
        .error ⟨"packageManagerCommands[manager][normalizedType] is not a function"⟩) ∧
      createLinkCommand manager path = createLinkCommand "npm" path) ∧
    (∀ manager dependencyType,
      getAddCommandJs manager path dependencyType =
        getAddCommandJs manager path (normalizeDependencyType (some dependencyType))) := by
  refine ⟨⟨rfl, rfl, rfl, rfl⟩, ⟨rfl, rfl, rfl, rfl⟩, ⟨rfl, rfl, rfl, rfl⟩,
    ⟨rfl, rfl, rfl, rfl⟩, ⟨rfl, rfl, rfl, rfl⟩, ?_, ?_, ?_⟩
  · intro manager hm hp
    constructor
    · intro dependencyType
      rw [getAddCommandJs_cases, if_neg hm, if_neg hp]
      rfl
    · simp only [knownManagers, List.mem_cons, List.not_mem_nil, or_false, not_or] at hm
      obtain ⟨h1, h2, h3, h4⟩ := hm
      simp [createLinkCommand, h1, h2, h3, h4]
  · intro manager hp
    have hm : manager ∉ knownManagers :=
      (by decide : ∀ x ∈ objectPrototypeKeys, x ∉ knownManagers) manager hp
    constructor
    · intro dependencyType
      rw [getAddCommandJs_cases, if_neg hm, if_pos hp]
    · have h4 : manager ≠ "yarn" ∧ manager ≠ "pnpm" ∧ manager ≠ "bun" :=
        (by decide : ∀ x ∈ objectPrototypeKeys, x ≠ "yarn" ∧ x ≠ "pnpm" ∧ x ≠ "bun")
          manager hp
      simp [createLinkCommand, h4.1, h4.2.1, h4.2.2]
  · intro manager dependencyType
    simp only [getAddCommandJs, normalizeDT_idem]

/-- C2 witness: the unknown manager "deno" falls back to the npm row in
both mappings, while the `Object.prototype` member "hasOwnProperty"
makes the add lookup throw. -/
theorem C2_witness :
    getAddCommandJs "deno" "/pkg" "dev" = getAddCommandJs "npm" "/pkg" "dev" ∧
    createLinkCommand "deno" "/pkg" = createLinkCommand "npm" "/pkg" ∧
    getAddCommandJs "hasOwnProperty" "/pkg" "dev" =
      .error ⟨"packageManagerCommands[manager][normalizedType] is not a function"⟩ := by
  have h := (C2_command_tables_amended "/pkg").2.2.2.2.2.1 "deno" (by decide) (by decide)
  have hp := (C2_command_tables_amended "/pkg").2.2.2.2.2.2.1 "hasOwnProperty" (by decide)
  exact ⟨h.1 "dev", h.2, hp.1 "dev"⟩

/-- C8: when detection throws, returns no result, or returns an empty
identifier, the operation behaves exactly as if the detector had
returned npm — the failure is never surfaced — and for a valid package
with a successful execution exactly one command runs, using the npm link
template. -/
theorem C8_detection_fallback (env : Env) (options : LinkOptions)
    (hdet : (∃ e, env.detect options.projectPath = .error e) ∨
      env.detect options.projectPath = .ok none ∨
      env.detect options.projectPath = .ok (some "")) :
    npmLink env options = npmLink { env with detect := fun _ => .ok (some "npm") } options ∧
    (validatePackage env options.packagePath options.packageName = none →
      ∀ out, executeCommand (env.outcomes 0) = .ok out →
        (npmLink env options).2 = ["npm link " ++ options.packagePath] ∧
        (npmLink env options).1.success = true) := by
  have hdm : detectPackageManager env options.projectPath = "npm" ∨
      detectPackageManager env options.projectPath = "" := by
    rcases hdet with ⟨e, he⟩ | h | h
    · left; simp [detectPackageManager, he]
    · left; simp [detectPackageManager, h]
    · right; simp [detectPackageManager, h]
  have hdm2 : detectPackageManager { env with detect := fun _ => .ok (some "npm") }
      options.projectPath = "npm" := rfl
  constructor
  · have key : npmLinkTry env options =
        npmLinkTry { env with detect := fun _ => .ok (some "npm") } options := by
      simp only [npmLinkTry, validatePackage_detect_irrel, elwf_detect_irrel, hdm2]
      rcases hdm with h | h
      · rw [h]
      · rw [h, elwf_empty_manager]
    simp only [npmLink, key]
  · intro hvalid out h0
    have hr := npmLink_valid_ok env options out hvalid h0
    rw [hr]
    rcases hdm with h | h <;> rw [h] <;> exact ⟨by simp [createLinkCommand], rfl⟩

/-- C8 witness: with a throwing detector, a valid package and a
successful execution, the operation equals its npm-detector counterpart
and executes exactly the npm link command, successfully. -/
theorem C8_witness :
    npmLink envDetectThrows optsFoo =
      npmLink { envDetectThrows with detect := fun _ => .ok (some "npm") } optsFoo ∧
    (npmLink envDetectThrows optsFoo).2 = ["npm link /pkg"] ∧
    (npmLink envDetectThrows optsFoo).1.success = true := by
  have h := C8_detection_fallback envDetectThrows optsFoo (Or.inl ⟨⟨"detector exploded"⟩, rfl⟩)
  have h2 := h.2 (by decide) (jsTrim "ok") rfl
  exact ⟨h.1, h2.1.trans (by decide), h2.2⟩

theorem validatePackage_stat_err (env : Env) (pp pn : String) (e : Err)
    (he : env.stat pp = .error e) :
    validatePackage env pp pn =
      some { success := false, message := "Failed to create link: " ++ e.message,
             error := some e } := by
  simp only [validatePackage, validateBody, he]
  rfl

theorem validatePackage_not_dir (env : Env) (pp pn : String) (st : Stats)
    (hst : env.stat pp = .ok st) (hdir : st.isDirectory = false) :
    validatePackage env pp pn =
      some { success := false, message := "Package directory does not exist: " ++ pp,
             error := none } := by
  simp [validatePackage, validateBody, hst, hdir, bind, Except.bind, pure, Except.pure]

theorem validatePackage_json_stat_err (env : Env) (pp pn : String) (st : Stats) (e : Err)
    (hst : env.stat pp = .ok st) (hdir : st.isDirectory = true)
    (hj : env.stat (pathJoin pp "package.json") = .error e) :
    validatePackage env pp pn =
      some { success := false, message := "Failed to create link: " ++ e.message,
             error := some e } := by
  simp [validatePackage, validateBody, hst, hdir, hj, bind, Except.bind, pure, Except.pure]

theorem validatePackage_json_not_file (env : Env) (pp pn : String) (st stj : Stats)
    (hst : env.stat pp = .ok st) (hdir : st.isDirectory = true)
    (hj : env.stat (pathJoin pp "package.json") = .ok stj) (hf : stj.isFile = false) :
    validatePackage env pp pn =
      some { success := false, message := "No package.json found in: " ++ pp,
             error := none } := by
  simp [validatePackage, validateBody, hst, hdir, hj, hf, bind, Except.bind, pure, Except.pure]

theorem validatePackage_no_name (env : Env) (pp pn : String) (st stj : Stats)
    (content : String) (nameOpt : Option String)
    (hst : env.stat pp = .ok st) (hdir : st.isDirectory = true)
    (hj : env.stat (pathJoin pp "package.json") = .ok stj) (hf : stj.isFile = true)
    (hrf : env.readFile (pathJoin pp "package.json") = .ok content)
    (hpn : env.parseName content = .ok nameOpt)
    (hfalsy : jsFalsyName nameOpt = true) :
    validatePackage env pp pn =
      some { success := false,
             message := "No package name found in package.json: " ++ pathJoin pp "package.json",
             error := none } := by
  simp [validatePackage, validateBody, hst, hdir, hj, hf, hrf, hpn, hfalsy, bind, Except.bind,
    pure, Except.pure]

theorem validatePackage_name_mismatch (env : Env) (pp pn : String) (st stj : Stats)
    (content : String) (n : String)
    (hst : env.stat pp = .ok st) (hdir : st.isDirectory = true)
    (hj : env.stat (pathJoin pp "package.json") = .ok stj) (hf : stj.isFile = true)
    (hrf : env.readFile (pathJoin pp "package.json") = .ok content)
    (hpn : env.parseName content = .ok (some n))
    (hne : (n == "") = false) (hmm : n ≠ pn) :
    validatePackage env pp pn =
      some { success := false,
             message := "Package name in package.json (" ++ n ++
               ") does not match provided package name (" ++ pn ++ ")",
             error := none } := by
  simp [validatePackage, validateBody, hst, hdir, hj, hf, hrf, hpn, jsFalsyName, hne,
    Option.getD_some, hmm, bind, Except.bind, pure, Except.pure]

set_option maxRecDepth 10000 in
/-- C5 counterexample: for a non-existent `packagePath` the filesystem
stat rejects, so `validatePackage` answers through its catch clause with
a `Failed to create link: <fs error>` message that does not contain
"does not exist", contradicting the claimed distinguishing substring. -/
theorem C5_counterexample :
    validatePackage envNoPkg "/pkg" "foo" =
      some { success := false
             message := "Failed to create link: ENOENT: no such file or directory, stat /pkg"
             error := some ⟨"ENOENT: no such file or directory, stat /pkg"⟩ } ∧
    jsIncludes "Failed to create link: ENOENT: no such file or directory, stat /pkg"
      "does not exist" = false := by
  exact ⟨by decide, by decide⟩

/-- C5 (amended): all five rejection scenarios return success=false with
no command executed; the path-is-not-a-directory, manifest-not-a-file,
missing-name and mismatched-name checks carry the distinguishing
substrings "does not exist", "No package.json found", "No package name
found", "does not match", while a non-existent `packagePath` or a
missing `package.json` reject through the catch clause with message
`Failed to create link: <fs error message>`; when all checks pass,
validation returns none and the orchestrator proceeds to the
link-with-fallback phase. -/
theorem C5_validation_amended (env : Env) (options : LinkOptions) :
    (∀ e, env.stat options.packagePath = .error e →
      validatePackage env options.packagePath options.packageName =
        some { success := false, message := "Failed to create link: " ++ e.message,
               error := some e }) ∧
    (∀ st, env.stat options.packagePath = .ok st → st.isDirectory = false →
      validatePackage env options.packagePath options.packageName =
        some { success := false,
               message := "Package directory does not exist: " ++ options.packagePath,
               error := none } ∧
      jsIncludes ("Package directory does not exist: " ++ options.packagePath)
        "does not exist" = true) ∧
    (∀ st e, env.stat options.packagePath = .ok st → st.isDirectory = true →
      env.stat (pathJoin options.packagePath "package.json") = .error e →
      validatePackage env options.packagePath options.packageName =
        some { success := false, message := "Failed to create link: " ++ e.message,
               error := some e }) ∧
    (∀ st stj, env.stat options.packagePath = .ok st → st.isDirectory = true →
      env.stat (pathJoin options.packagePath "package.json") = .ok stj → stj.isFile = false →
      validatePackage env options.packagePath options.packageName =
        some { success := false,
               message := "No package.json found in: " ++ options.packagePath,
               error := none } ∧
      jsIncludes ("No package.json found in: " ++ options.packagePath)
        "No package.json found" = true) ∧
    (∀ st stj content nameOpt, env.stat options.packagePath = .ok st → st.isDirectory = true →
      env.stat (pathJoin options.packagePath "package.json") = .ok stj → stj.isFile = true →
      env.readFile (pathJoin options.packagePath "package.json") = .ok content →
      env.parseName content = .ok nameOpt → jsFalsyName nameOpt = true →
      validatePackage env options.packagePath options.packageName =
        some { success := false,
               message := "No package name found in package.json: " ++
                 pathJoin options.packagePath "package.json",
               error := none } ∧
      jsIncludes ("No package name found in package.json: " ++
          pathJoin options.packagePath "package.json") "No package name found" = true) ∧
    (∀ st stj content n, env.stat options.packagePath = .ok st → st.isDirectory = true →
      env.stat (pathJoin options.packagePath "package.json") = .ok stj → stj.isFile = true →
      env.readFile (pathJoin options.packagePath "package.json") = .ok content →
      env.parseName content = .ok (some n) → (n == "") = false → n ≠ options.packageName →
      validatePackage env options.packagePath options.packageName =
        some { success := false,
               message := "Package name in package.json (" ++ n ++
                 ") does not match provided package name (" ++ options.packageName ++ ")",
               error := none } ∧
      jsIncludes ("Package name in package.json (" ++ n ++
          ") does not match provided package name (" ++ options.packageName ++ ")")
        "does not match" = true) ∧
    (∀ r, validatePackage env options.packagePath options.packageName = some r →
      npmLink env options = (r, [])) ∧
    (validatePackage env options.packagePath options.packageName = none →
      npmLinkTry env options =
        executeLinkWithFallback env
          { packageManager := detectPackageManager env options.projectPath
            dependencyType := options.dependencyType.getD "prod"
            packagePath := options.packagePath
            projectPath := options.projectPath
            packageName := options.packageName }) := by
  refine ⟨?_, ?_, ?_, ?_, ?_, ?_, ?_, ?_⟩
  · intro e he
    exact validatePackage_stat_err env options.packagePath options.packageName e he
  · intro st hst hdir
    refine ⟨validatePackage_not_dir env options.packagePath options.packageName st hst hdir, ?_⟩
    exact jsIncludes_append_right "Package directory does not exist: " options.packagePath
      "does not exist" (by decide)
  · intro st e hst hdir hj
    exact validatePackage_json_stat_err env options.packagePath options.packageName st e
      hst hdir hj
  · intro st stj hst hdir hj hf
    refine ⟨validatePackage_json_not_file env options.packagePath options.packageName st stj
      hst hdir hj hf, ?_⟩
    exact jsIncludes_append_right "No package.json found in: " options.packagePath
      "No package.json found" (by decide)
  · intro st stj content nameOpt hst hdir hj hf hrf hpn hfalsy
    refine ⟨validatePackage_no_name env options.packagePath options.packageName st stj content
      nameOpt hst hdir hj hf hrf hpn hfalsy, ?_⟩
    exact jsIncludes_append_right "No package name found in package.json: "
      (pathJoin options.packagePath "package.json") "No package name found" (by decide)
  · intro st stj content n hst hdir hj hf hrf hpn hne hmm
    refine ⟨validatePackage_name_mismatch env options.packagePath options.packageName st stj
      content n hst hdir hj hf hrf hpn hne hmm, ?_⟩
    have hc : jsIncludes ") does not match provided package name (" "does not match" = true := by
      decide
    have h1 := jsIncludes_append_left ("Package name in package.json (" ++ n)
      ") does not match provided package name (" "does not match" hc
    have h2 := jsIncludes_append_right
      (("Package name in package.json (" ++ n) ++ ") does not match provided package name (")
      options.packageName "does not match" h1
    exact jsIncludes_append_right
      ((("Package name in package.json (" ++ n) ++ ") does not match provided package name (") ++
        options.packageName) ")" "does not match" h2
  · intro r hr
    exact npmLink_invalid env options r hr
  · intro hvalid
    simp only [npmLinkTry, hvalid]

/-- C5 witness: a `packagePath` that exists but is a regular file is
rejected with the "does not exist" message and no command execution. -/
theorem C5_witness :
    validatePackage envNotDir "/pkg" "foo" =
      some { success := false, message := "Package directory does not exist: /pkg",
             error := none } ∧
    jsIncludes "Package directory does not exist: /pkg" "does not exist" = true ∧
    npmLink envNotDir optsFoo =
      ({ success := false, message := "Package directory does not exist: /pkg",
         error := none }, []) := by
  have h := (C5_validation_amended envNotDir optsFoo).2.1 ⟨false, true⟩ rfl rfl
  have hmsg : ("Package directory does not exist: " ++ "/pkg") =
      "Package directory does not exist: /pkg" := by decide
  have hrun := (C5_validation_amended envNotDir optsFoo).2.2.2.2.2.2.1 _ h.1
  refine ⟨h.1.trans (by decide), hmsg ▸ h.2, hrun.trans (by decide)⟩
